import Mathlib

/-!
Verification of the core of the marketing ROI analyzer
(`roi_calculator.py`: `calculate_roi_metrics`,
`identify_optimization_opportunities`, and the impact/selection
computations inside `generate_recommendations`).

Numeric model: the pandas/numpy float arithmetic of the source is modelled
over the rationals.  A float value is an `Option ℚ`: `some q` is a finite
value (exact real arithmetic, rounding ignored), `none` is a non-finite
value (`inf`, `-inf` or `NaN`).  Every division in `calculate_roi_metrics`
is guarded by the source (`if denominator > 0 else 0`), so `ChannelMetrics`
holds plain rationals; the divisions in `identify_optimization_opportunities`
and in the impact figure of `generate_recommendations` are unguarded pandas
divisions, which yield `inf`/`NaN` (never an exception), so those derived
fields are `Option ℚ`.  The source defines no exception classes and contains
no `raise`: every modelled function is total.

The pandas sorts (`sort_values`, `nlargest`, `nsmallest`) are modelled as
stable sorts on association lists (Python dicts preserve insertion order, so
the metrics mapping is a list keyed by first appearance of each channel).
-/

namespace ROICalc

/-- One row of the input CSV (`self.df`): the columns read by the core. -/
structure Record where
  channel : String
  spend : ℚ
  revenue : ℚ
  clicks : ℚ
  conversions : ℚ
  impressions : ℚ
deriving DecidableEq, Repr

/-- One entry of `self.channel_metrics[channel]` as built at lines 35-45. -/
structure ChannelMetrics where
  TotalSpend : ℚ
  TotalRevenue : ℚ
  ROI : ℚ
  CAC : ℚ
  ConversionRate : ℚ
  ROMI : ℚ
  Conversions : ℚ
  Clicks : ℚ
  Impressions : ℚ
deriving DecidableEq, Repr

/-- Helper for `uniqueChannels`: drop the channels already seen. -/
def uniqueAux (seen : List String) : List String → List String
  | [] => []
  | c :: rest =>
    if c ∈ seen then uniqueAux seen rest
    else c :: uniqueAux (c :: seen) rest

/-- `df['Channel'].unique()`: distinct channels in first-appearance order. -/
def uniqueChannels (l : List String) : List String :=
  uniqueAux [] l

/-- `self.df[self.df['Channel'] == channel]`. -/
def channelData (records : List Record) (c : String) : List Record :=
  records.filter (fun r => r.channel = c)

/-- `channel_data[col].sum()`. -/
def sumBy (f : Record → ℚ) (rs : List Record) : ℚ :=
  (rs.map f).sum

/-- The per-channel body of `calculate_roi_metrics` (lines 25-45): six column
sums and the four ratios, each ratio guarded by `if denominator > 0 else 0`. -/
def metricsFor (rs : List Record) : ChannelMetrics :=
  let total_spend := sumBy (fun r => r.spend) rs
  let total_revenue := sumBy (fun r => r.revenue) rs
  let total_conversions := sumBy (fun r => r.conversions) rs
  let total_clicks := sumBy (fun r => r.clicks) rs
  { TotalSpend := total_spend
    TotalRevenue := total_revenue
    ROI := if 0 < total_spend then (total_revenue - total_spend) / total_spend * 100 else 0
    CAC := if 0 < total_conversions then total_spend / total_conversions else 0
    ConversionRate := if 0 < total_clicks then total_conversions / total_clicks * 100 else 0
    ROMI := if 0 < total_spend then (total_revenue - total_spend) / total_spend else 0
    Conversions := total_conversions
    Clicks := total_clicks
    Impressions := sumBy (fun r => r.impressions) rs }

/-- `calculate_roi_metrics` (lines 18-48): one `ChannelMetrics` per distinct
channel, keyed in first-appearance order (Python dict insertion order). -/
def calculate_roi_metrics (records : List Record) : List (String × ChannelMetrics) :=
  (uniqueChannels (records.map (fun r => r.channel))).map
    (fun c => (c, metricsFor (channelData records c)))

/-! ### Float model for the unguarded pandas arithmetic -/

/-- Unguarded pandas division: dividing a finite value by zero yields a
non-finite float (`inf`, `-inf` or `NaN`), modelled as `none`. -/
def fdiv (x y : ℚ) : Option ℚ :=
  if y = 0 then none else some (x / y)

/-- Float multiplication: a non-finite operand gives a non-finite result. -/
def omul : Option ℚ → Option ℚ → Option ℚ
  | some x, some y => some (x * y)
  | _, _ => none

/-- Float subtraction: a non-finite operand gives a non-finite result. -/
def osub : Option ℚ → Option ℚ → Option ℚ
  | some x, some y => some (x - y)
  | _, _ => none

/-- Float addition: a non-finite operand gives a non-finite result. -/
def oadd : Option ℚ → Option ℚ → Option ℚ
  | some x, some y => some (x + y)
  | _, _ => none

/-- Float division with a possibly non-finite numerator (the denominators
occurring in the source are always finite column values). -/
def odiv : Option ℚ → Option ℚ → Option ℚ
  | some x, some y => fdiv x y
  | _, _ => none

/-- One row of the DataFrame returned by `identify_optimization_opportunities`
(the columns added at lines 60-65, next to the metrics columns it keeps). -/
structure PlanEntry where
  ROI : ℚ
  TotalSpend : ℚ
  TotalRevenue : ℚ
  OptimalAllocation : Option ℚ
  CurrentRevenue : ℚ
  ExpectedRevenue : Option ℚ
  RevenueIncrease : Option ℚ
deriving DecidableEq, Repr

/-- `sort_values('ROI', ascending=False)` key order on the metrics rows. -/
def roiDescM (a b : String × ChannelMetrics) : Prop :=
  b.2.ROI ≤ a.2.ROI

instance : DecidableRel roiDescM := fun a b => by
  unfold roiDescM; infer_instance

instance : IsTotal (String × ChannelMetrics) roiDescM :=
  ⟨fun a b => le_total b.2.ROI a.2.ROI⟩

instance : IsTrans (String × ChannelMetrics) roiDescM :=
  ⟨fun _ _ _ h h' => le_trans h' h⟩

/-- `identify_optimization_opportunities` (lines 50-67): sort rows by
descending ROI, divide each ROI by the unguarded ROI total, scale by the
budget, and derive expected revenue and revenue increase per row. -/
def identify_optimization_opportunities
    (metrics : List (String × ChannelMetrics)) (budget : ℚ) :
    List (String × PlanEntry) :=
  let metrics_df := List.insertionSort roiDescM metrics
  let total_roi := (metrics_df.map (fun p => p.2.ROI)).sum
  metrics_df.map (fun p =>
    let alloc := omul (fdiv p.2.ROI total_roi) (some budget)
    let expected := omul (odiv alloc (some p.2.TotalSpend)) (some p.2.TotalRevenue)
    (p.1,
      { ROI := p.2.ROI
        TotalSpend := p.2.TotalSpend
        TotalRevenue := p.2.TotalRevenue
        OptimalAllocation := alloc
        CurrentRevenue := p.2.TotalRevenue
        ExpectedRevenue := expected
        RevenueIncrease := osub expected (some p.2.TotalRevenue) }))

/-- `nlargest(_, 'ROI')` key order on plan rows (descending ROI, stable). -/
def roiDescP (a b : String × PlanEntry) : Prop :=
  b.2.ROI ≤ a.2.ROI

instance : DecidableRel roiDescP := fun a b => by
  unfold roiDescP; infer_instance

instance : IsTotal (String × PlanEntry) roiDescP :=
  ⟨fun a b => le_total b.2.ROI a.2.ROI⟩

instance : IsTrans (String × PlanEntry) roiDescP :=
  ⟨fun _ _ _ h h' => le_trans h' h⟩

/-- `nsmallest(_, 'ROI')` key order on plan rows (ascending ROI, stable). -/
def roiAscP (a b : String × PlanEntry) : Prop :=
  a.2.ROI ≤ b.2.ROI

instance : DecidableRel roiAscP := fun a b => by
  unfold roiAscP; infer_instance

instance : IsTotal (String × PlanEntry) roiAscP :=
  ⟨fun a b => le_total a.2.ROI b.2.ROI⟩

instance : IsTrans (String × PlanEntry) roiAscP :=
  ⟨fun _ _ _ h h' => le_trans h h'⟩

/-- `optimal_df.nlargest(3, 'ROI')` (line 93): the three rows with the
largest ROI, ties kept in row order (pandas `keep='first'`). -/
def top_performers (plans : List (String × PlanEntry)) : List (String × PlanEntry) :=
  (List.insertionSort roiDescP plans).take 3

/-- `optimal_df.nsmallest(2, 'ROI')` (line 99): the two rows with the
smallest ROI, ties kept in row order (pandas `keep='first'`). -/
def underperformers (plans : List (String × PlanEntry)) : List (String × PlanEntry) :=
  (List.insertionSort roiAscP plans).take 2

/-- `optimal_df['RevenueIncrease'].sum()` (line 105). -/
def total_increase (plans : List (String × PlanEntry)) : Option ℚ :=
  (plans.map (fun p => p.2.RevenueIncrease)).foldr oadd (some 0)

/-- `metrics_df['TotalSpend'].sum()` (line 108). -/
def spend_sum (metrics : List (String × ChannelMetrics)) : ℚ :=
  (metrics.map (fun p => p.2.TotalSpend)).sum

/-- The DataFrame used by `generate_recommendations` (line 90): the
optimizer applied to the aggregated metrics at the default budget 100000. -/
def optimal_df (records : List Record) : List (String × PlanEntry) :=
  identify_optimization_opportunities (calculate_roi_metrics records) 100000

/-- The ROI-improvement figure of `generate_recommendations` (line 108):
`(total_increase / metrics_df['TotalSpend'].sum()) * 100`, unguarded. -/
def roi_improvement (records : List Record) : Option ℚ :=
  omul
    (odiv (total_increase (optimal_df records))
      (some (spend_sum (calculate_roi_metrics records))))
    (some 100)

/-- Sum of the optimalAllocation column of a reallocation plan, in the float
model (non-finite if any summand is non-finite). -/
def alloc_sum (plans : List (String × PlanEntry)) : Option ℚ :=
  (plans.map (fun p => p.2.OptimalAllocation)).foldr oadd (some 0)

/-- Modelled from the spec: ascending lexical order on channel identifiers
(character-wise), used only to state the spec's claimed tie-break rule.  The
source has no lexical comparison anywhere. -/
def lexLeChars : List Char → List Char → Bool
  | [], _ => true
  | _ :: _, [] => false
  | a :: s, b :: t =>
    if a.val < b.val then true
    else if b.val < a.val then false
    else lexLeChars s t

/-- Modelled from the spec: the claimed top-K key order — descending
roiPercent with ties broken by ascending lexical channel identifier. -/
def specTopOrder (a b : String × PlanEntry) : Prop :=
  b.2.ROI < a.2.ROI ∨ (b.2.ROI = a.2.ROI ∧ lexLeChars a.1.data b.1.data = true)

instance : DecidableRel specTopOrder := fun a b => by
  unfold specTopOrder; infer_instance

/-- Modelled from the spec: top-3 selection under the spec's claimed
deterministic tie-break (descending ROI, ties by ascending channel id). -/
def spec_top_performers (plans : List (String × PlanEntry)) : List (String × PlanEntry) :=
  (List.insertionSort specTopOrder plans).take 3

/-! ### Concrete data used by witnesses and counterexamples -/

/-- §8 scenario, first record: Email. -/
def emailR : Record := ⟨"Email", 1000, 3000, 500, 50, 0⟩

/-- §8 scenario, second record: Social. -/
def socialR : Record := ⟨"Social", 2000, 1800, 1000, 40, 0⟩

/-- Aggregated metrics of `emailR`. -/
def emailM : ChannelMetrics := ⟨1000, 3000, 200, 20, 10, 2, 50, 500, 0⟩

/-- Aggregated metrics of `socialR`. -/
def socialM : ChannelMetrics := ⟨2000, 1800, -10, 50, 4, -1/10, 40, 1000, 0⟩

/-- A record violating every non-negativity constraint except revenue. -/
def negR : Record := ⟨"A", -5, 10, -2, -3, -4⟩

/-- Metrics the code computes for `negR` (all ratio guards fall to 0). -/
def negM : ChannelMetrics := ⟨-5, 10, 0, 0, 0, 0, -3, -2, -4⟩

/-- An all-zero record. -/
def zeroR : Record := ⟨"Z", 0, 0, 0, 0, 0⟩

/-- Metrics of `zeroR`: every sum and ratio is 0. -/
def mZero : ChannelMetrics := ⟨0, 0, 0, 0, 0, 0, 0, 0, 0⟩

/-- Record with positive spend 5 and revenue 10 (ROI 100). -/
def recA : Record := ⟨"A", 5, 10, 0, 0, 0⟩

/-- Record with negative spend -5 cancelling recA's spend in the total. -/
def recB : Record := ⟨"B", -5, 0, 0, 0, 0⟩

/-- Metrics of `recA`. -/
def mRecA : ChannelMetrics := ⟨5, 10, 100, 0, 0, 1, 0, 0, 0⟩

/-- Metrics of `recB` (spend -5 fails the `> 0` guard, so ROI = 0). -/
def mRecB : ChannelMetrics := ⟨-5, 0, 0, 0, 0, 0, 0, 0, 0⟩

/-- Plan row for `recA` under budget 100000. -/
def peRecA : PlanEntry := ⟨100, 5, 10, some 100000, 10, some 200000, some 199990⟩

/-- Plan row for `recB` under budget 100000. -/
def peRecB : PlanEntry := ⟨0, -5, 0, some 0, 0, some 0, some 0⟩

/-- Metrics with ROI 100 (spend 100, revenue 200). -/
def mExA : ChannelMetrics := ⟨100, 200, 100, 0, 0, 1, 0, 0, 0⟩

/-- Metrics with ROI -100 (spend 100, revenue 0). -/
def mExB : ChannelMetrics := ⟨100, 0, -100, 0, 0, -1, 0, 0, 0⟩

/-- Plan row for `mExA` when the ROI total is zero: everything non-finite. -/
def peA : PlanEntry := ⟨100, 100, 200, none, 200, none, none⟩

/-- Plan row for `mExB` when the ROI total is zero: everything non-finite. -/
def peB : PlanEntry := ⟨-100, 100, 0, none, 0, none, none⟩

/-- Metrics with ROI 200 (spend 100, revenue 300). -/
def mHiRoi : ChannelMetrics := ⟨100, 300, 200, 0, 0, 2, 0, 0, 0⟩

/-- Metrics of a channel with zero spend but nonzero revenue 50. -/
def mZeroSpend : ChannelMetrics := ⟨0, 50, 0, 0, 0, 0, 0, 0, 0⟩

/-- Plan row for `mHiRoi` under budget 100000 next to `mZeroSpend`. -/
def peHi : PlanEntry := ⟨200, 100, 300, some 100000, 300, some 300000, some 299700⟩

/-- Plan row for `mZeroSpend`: allocation 0 but expected revenue is 0/0, NaN. -/
def peZeroSpend : PlanEntry := ⟨0, 0, 50, some 0, 50, none, none⟩

/-- Plan row shared by the two tied channels of the C8 scenario. -/
def peTie : PlanEntry := ⟨100, 100, 200, some 50000, 200, some 100000, some 99800⟩

/-! ### Helper lemmas -/

/-- Membership in `uniqueAux`: an element appears iff it appears in the list
and was not already seen. -/
theorem mem_uniqueAux (x : String) (l : List String) :
    ∀ seen, x ∈ uniqueAux seen l ↔ x ∈ l ∧ x ∉ seen := by
  induction l with
  | nil => intro seen; simp [uniqueAux]
  | cons c rest ih =>
    intro seen
    by_cases hc : c ∈ seen
    · simp only [uniqueAux, if_pos hc, ih seen, List.mem_cons]
      constructor
      · exact fun h => ⟨Or.inr h.1, h.2⟩
      · rintro ⟨rfl | h1, h2⟩
        · exact absurd hc h2
        · exact ⟨h1, h2⟩
    · simp only [uniqueAux, if_neg hc, List.mem_cons, ih (c :: seen)]
      constructor
      · rintro (rfl | ⟨h1, h2⟩)
        · exact ⟨Or.inl rfl, hc⟩
        · exact ⟨Or.inr h1, fun hx => h2 (Or.inr hx)⟩
      · rintro ⟨h1, h2⟩
        by_cases hxc : x = c
        · exact Or.inl hxc
        · rcases h1 with rfl | h1
          · exact Or.inl rfl
          · refine Or.inr ⟨h1, fun hx => ?_⟩
            rcases hx with h | h
            · exact hxc h
            · exact h2 h

/-- The keys of the aggregated mapping are exactly the distinct channels. -/
theorem map_fst_calculate_roi_metrics (records : List Record) :
    (calculate_roi_metrics records).map Prod.fst =
      uniqueChannels (records.map (fun r => r.channel)) := by
  unfold calculate_roi_metrics
  rw [List.map_map]
  have h : (Prod.fst ∘ fun c => (c, metricsFor (channelData records c))) = id := rfl
  rw [h, List.map_id]

/-- Every entry of the aggregated mapping is the metrics of its group. -/
theorem mem_calculate_roi_metrics {records : List Record} {c : String}
    {m : ChannelMetrics} (h : (c, m) ∈ calculate_roi_metrics records) :
    m = metricsFor (channelData records c) := by
  unfold calculate_roi_metrics at h
  rw [List.mem_map] at h
  obtain ⟨ch, _, heq⟩ := h
  rw [Prod.mk.injEq] at heq
  obtain ⟨rfl, h2⟩ := heq
  exact h2.symm

/-- Folding float addition over finite values is the plain rational sum. -/
theorem foldr_oadd_map_some (vs : List ℚ) :
    (vs.map some).foldr oadd (some 0) = some vs.sum := by
  induction vs with
  | nil => simp [oadd]
  | cons v vs ih => simp [oadd, ih]

/-- Dividing by a zero denominator poisons the whole product. -/
theorem omul_odiv_zero (a : Option ℚ) (r : ℚ) :
    omul (odiv a (some 0)) (some r) = none := by
  cases a <;> simp [odiv, fdiv, omul]

/-- Evaluation of the §8 scenario through the aggregator. -/
theorem metrics_email_social :
    calculate_roi_metrics [emailR, socialR] = [("Email", emailM), ("Social", socialM)] := by
  norm_num +decide [calculate_roi_metrics, uniqueChannels, uniqueAux, channelData,
    metricsFor, sumBy, emailR, socialR, emailM, socialM]

/-- Aggregating the all-zero record. -/
theorem metrics_zero_record :
    calculate_roi_metrics [zeroR] = [("Z", mZero)] := by
  norm_num +decide [calculate_roi_metrics, uniqueChannels, uniqueAux, channelData,
    metricsFor, sumBy, zeroR, mZero]

/-- Aggregating the positive-spend record alone. -/
theorem metrics_recA :
    calculate_roi_metrics [recA] = [("A", mRecA)] := by
  norm_num +decide [calculate_roi_metrics, uniqueChannels, uniqueAux, channelData,
    metricsFor, sumBy, recA, mRecA]

/-- Aggregating the pair whose spends cancel to a zero total. -/
theorem metrics_recAB :
    calculate_roi_metrics [recA, recB] = [("A", mRecA), ("B", mRecB)] := by
  norm_num +decide [calculate_roi_metrics, uniqueChannels, uniqueAux, channelData,
    metricsFor, sumBy, recA, recB, mRecA, mRecB]

/-- The optimizer on a mapping whose ROI values sum to zero: every derived
column is non-finite; no error of any kind. -/
theorem identify_zero_sum :
    identify_optimization_opportunities [("A", mExA), ("B", mExB)] 100000 =
      [("A", peA), ("B", peB)] := by
  norm_num +decide [identify_optimization_opportunities, roiDescM, omul, odiv, osub,
    fdiv, mExA, mExB, peA, peB]

/-- The optimizer next to a zero-spend channel: that channel's expected
revenue is 0/0, a NaN; no error of any kind. -/
theorem identify_zero_spend :
    identify_optimization_opportunities [("A", mHiRoi), ("C", mZeroSpend)] 100000 =
      [("A", peHi), ("C", peZeroSpend)] := by
  norm_num +decide [identify_optimization_opportunities, roiDescM, omul, odiv, osub,
    fdiv, mHiRoi, mZeroSpend, peHi, peZeroSpend]

/-- The optimizer on two channels with identical metrics (an ROI tie), the
lexically larger channel appearing first in the input. -/
theorem identify_tie :
    identify_optimization_opportunities [("B", mExA), ("A", mExA)] 100000 =
      [("B", peTie), ("A", peTie)] := by
  norm_num +decide [identify_optimization_opportunities, roiDescM, omul, odiv, osub,
    fdiv, mExA, peTie]

/-- The report pipeline on the cancelling-spend pair. -/
theorem optimal_df_recAB :
    optimal_df [recA, recB] = [("A", peRecA), ("B", peRecB)] := by
  rw [optimal_df, metrics_recAB]
  norm_num +decide [identify_optimization_opportunities, roiDescM, omul, odiv, osub,
    fdiv, mRecA, mRecB, peRecA, peRecB]

/-- The report pipeline on the positive-spend record alone. -/
theorem optimal_df_recA :
    optimal_df [recA] = [("A", peRecA)] := by
  rw [optimal_df, metrics_recA]
  norm_num +decide [identify_optimization_opportunities, roiDescM, omul, odiv, osub,
    fdiv, mRecA, peRecA]

/-! ### Claims -/

/-- Claim C1, as stated, is false: on a metrics mapping whose ROI values sum
to zero, `identify_optimization_opportunities` does not fail — it returns a
full plan in which every channel's allocation is the result of a division by
zero, a non-finite float (modelled `none`). -/
theorem C1_counterexample :
    (identify_optimization_opportunities [("A", mExA), ("B", mExB)] 100000).map
      (fun p => (p.1, p.2.OptimalAllocation)) = [("A", none), ("B", none)] := by
  rw [identify_zero_sum]
  simp [peA, peB]

/-- Claim C1 (amended): when the ROI values of the metrics mapping sum to
zero, every entry of the returned plan has a non-finite optimalAllocation;
no error is raised (none exists in the code). -/
theorem C1_claim (metrics : List (String × ChannelMetrics)) (budget : ℚ)
    (p : String × PlanEntry)
    (hp : p ∈ identify_optimization_opportunities metrics budget)
    (hsum : (metrics.map (fun q => q.2.ROI)).sum = 0) :
    p.2.OptimalAllocation = none := by
  have hT : ((List.insertionSort roiDescM metrics).map (fun q => q.2.ROI)).sum = 0 := by
    rw [((List.perm_insertionSort roiDescM metrics).map _).sum_eq]
    exact hsum
  simp only [identify_optimization_opportunities, List.mem_map] at hp
  obtain ⟨q, hq, rfl⟩ := hp
  simp [omul, fdiv, hT]

/-- Witness for C1 at the concrete zero-ROI-sum mapping. -/
theorem C1_claim_witness :
    (("A", peA) : String × PlanEntry).2.OptimalAllocation = none :=
  C1_claim [("A", mExA), ("B", mExB)] 100000 ("A", peA)
    (by rw [identify_zero_sum]; exact List.mem_cons_self _ _)
    (by norm_num [mExA, mExB])

/-- Claim C2, as stated, is false: a record with negative spend, clicks,
conversions and impressions is aggregated normally; the code performs no
validation and returns a complete metrics mapping for it. -/
theorem C2_counterexample :
    calculate_roi_metrics [negR] = [("A", negM)] := by
  norm_num +decide [calculate_roi_metrics, uniqueChannels, uniqueAux, channelData,
    metricsFor, sumBy, negR, negM]

/-- Claim C2 (amended): `calculate_roi_metrics` performs no input
validation — for every input, including records with negative spend, clicks,
conversions or impressions, it returns an entry for every channel present. -/
theorem C2_claim (records : List Record) (r : Record) (h : r ∈ records) :
    r.channel ∈ (calculate_roi_metrics records).map Prod.fst := by
  rw [map_fst_calculate_roi_metrics, uniqueChannels, mem_uniqueAux]
  exact ⟨List.mem_map_of_mem _ h, by simp⟩

/-- Witness for C2 at the all-negative record. -/
theorem C2_claim_witness :
    negR.channel ∈ (calculate_roi_metrics [negR]).map Prod.fst :=
  C2_claim [negR] negR (List.mem_cons_self _ _)

/-- Claim C3, as stated, is false: for a channel with zero totalSpend the
code neither fails nor substitutes 0 — the expected revenue is 0/0 times the
revenue, a NaN (modelled `none`), while the positive-spend channel is
finite. -/
theorem C3_counterexample :
    (identify_optimization_opportunities [("A", mHiRoi), ("C", mZeroSpend)] 100000).map
      (fun p => (p.1, p.2.ExpectedRevenue)) = [("A", some 300000), ("C", none)] := by
  rw [identify_zero_spend]
  simp [peHi, peZeroSpend]

/-- Claim C3 (amended): for every channel whose totalSpend is zero, the plan
entry's expectedRevenue is a non-finite float (silent division by zero); it
is never an error and never the documented 0 substitute. -/
theorem C3_claim (metrics : List (String × ChannelMetrics)) (budget : ℚ)
    (p : String × PlanEntry)
    (hp : p ∈ identify_optimization_opportunities metrics budget)
    (hspend : p.2.TotalSpend = 0) :
    p.2.ExpectedRevenue = none := by
  simp only [identify_optimization_opportunities, List.mem_map] at hp
  obtain ⟨q, hq, rfl⟩ := hp
  simp only at hspend
  rw [hspend] at *
  exact omul_odiv_zero _ _

/-- Witness for C3 at the concrete zero-spend channel. -/
theorem C3_claim_witness :
    (("C", peZeroSpend) : String × PlanEntry).2.ExpectedRevenue = none :=
  C3_claim [("A", mHiRoi), ("C", mZeroSpend)] 100000 ("C", peZeroSpend)
    (by rw [identify_zero_spend]; exact List.mem_cons_of_mem _ (List.mem_cons_self _ _))
    (by norm_num [peZeroSpend])

/-- Claim C4: in every aggregated channel, a zero denominator yields a zero
ratio — zero totalSpend gives roiPercent 0 and romi 0, zero conversions give
cac 0, zero clicks give conversionRatePercent 0 (the code guards every
ratio with `if denominator > 0 else 0`, so no division happens and no error
or non-finite value can arise). -/
theorem C4_claim (records : List Record) (c : String) (m : ChannelMetrics)
    (h : (c, m) ∈ calculate_roi_metrics records) :
    (m.TotalSpend = 0 → m.ROI = 0 ∧ m.ROMI = 0) ∧
    (m.Conversions = 0 → m.CAC = 0) ∧
    (m.Clicks = 0 → m.ConversionRate = 0) := by
  obtain rfl := mem_calculate_roi_metrics h
  refine ⟨fun hs => ?_, fun hc => ?_, fun hk => ?_⟩ <;>
    simp_all [metricsFor, sumBy]

/-- Witness for C4 at the all-zero record. -/
theorem C4_claim_witness :
    (mZero.TotalSpend = 0 → mZero.ROI = 0 ∧ mZero.ROMI = 0) ∧
    (mZero.Conversions = 0 → mZero.CAC = 0) ∧
    (mZero.Clicks = 0 → mZero.ConversionRate = 0) :=
  C4_claim [zeroR] "Z" mZero
    (by rw [metrics_zero_record]; exact List.mem_cons_self _ _)

/-- Claim C5: the §8 two-record scenario aggregates to exactly two channels
with the stated ROI, CAC and conversion-rate values. -/
theorem C5_claim :
    (calculate_roi_metrics [emailR, socialR]).map
      (fun p => (p.1, p.2.ROI, p.2.CAC, p.2.ConversionRate)) =
      [("Email", 200, 20, 10), ("Social", -10, 50, 4)] := by
  rw [metrics_email_social]
  norm_num [emailM, socialM]

/-- Claim C6: in every aggregated channel, romi × 100 equals roiPercent
(both sides take the same guarded branch of the same ratio). -/
theorem C6_claim (records : List Record) (c : String) (m : ChannelMetrics)
    (h : (c, m) ∈ calculate_roi_metrics records) :
    m.ROMI * 100 = m.ROI := by
  obtain rfl := mem_calculate_roi_metrics h
  simp only [metricsFor]
  split_ifs <;> ring

/-- Witness for C6 at the Email channel of the §8 scenario. -/
theorem C6_claim_witness : emailM.ROMI * 100 = emailM.ROI :=
  C6_claim [emailR, socialR] "Email" emailM
    (by rw [metrics_email_social]; exact List.mem_cons_self _ _)

/-- Claim C7: on a single-channel mapping with positive roiPercent, the
optimizer allocates the entire budget to that channel. -/
theorem C7_claim (c : String) (m : ChannelMetrics) (budget : ℚ)
    (hroi : 0 < m.ROI) (hb : 0 < budget) :
    (identify_optimization_opportunities [(c, m)] budget).map
      (fun p => (p.1, p.2.OptimalAllocation)) = [(c, some budget)] := by
  have h0 : m.ROI ≠ 0 := ne_of_gt hroi
  simp [identify_optimization_opportunities, omul, fdiv, h0, div_self h0, roiDescM]

/-- Witness for C7 at a channel with ROI 100 and budget 5. -/
theorem C7_claim_witness :
    0 < mExA.ROI ∧
    (identify_optimization_opportunities [("A", mExA)] 5).map
      (fun p => (p.1, p.2.OptimalAllocation)) = [("A", some 5)] :=
  ⟨by norm_num [mExA], C7_claim "A" mExA 5 (by norm_num [mExA]) (by norm_num)⟩

/-- Claim C8, as stated, is false: with two channels of identical metrics
(an ROI tie), the code's top-K selection keeps the input row order ("B"
before "A"), while the spec's claimed ascending-lexical tie-break would put
"A" first. -/
theorem C8_counterexample :
    ((top_performers (identify_optimization_opportunities
        [("B", mExA), ("A", mExA)] 100000)).map Prod.fst = ["B", "A"]) ∧
    ((spec_top_performers (identify_optimization_opportunities
        [("B", mExA), ("A", mExA)] 100000)).map Prod.fst = ["A", "B"]) := by
  rw [identify_tie]
  constructor
  · norm_num +decide [top_performers, roiDescP, peTie]
  · norm_num +decide [spec_top_performers, specTopOrder, lexLeChars, peTie]

/-- Claim C8 (amended): the top-3 and bottom-2 selections are sorted by
descending (resp. ascending) roiPercent, and the underlying stable sorts
preserve the relative input order of any ROI-compatible pair — ties keep
the input row order, not lexical order. -/
theorem C8_claim (plans : List (String × PlanEntry)) :
    List.Sorted roiDescP (top_performers plans) ∧
    List.Sorted roiAscP (underperformers plans) ∧
    (∀ a b : String × PlanEntry, roiDescP a b → List.Sublist [a, b] plans →
      List.Sublist [a, b] (List.insertionSort roiDescP plans)) ∧
    (∀ a b : String × PlanEntry, roiAscP a b → List.Sublist [a, b] plans →
      List.Sublist [a, b] (List.insertionSort roiAscP plans)) := by
  refine ⟨?_, ?_, ?_, ?_⟩
  · exact List.Pairwise.sublist (List.take_sublist _ _)
      (List.sorted_insertionSort roiDescP plans)
  · exact List.Pairwise.sublist (List.take_sublist _ _)
      (List.sorted_insertionSort roiAscP plans)
  · exact fun a b hab hsub => List.pair_sublist_insertionSort hab hsub
  · exact fun a b hab hsub => List.pair_sublist_insertionSort hab hsub

/-- Witness for C8 at the tied two-channel plan: the tied pair stays in
input order through the descending sort. -/
theorem C8_claim_witness :
    List.Sublist [(("B", peTie) : String × PlanEntry), ("A", peTie)]
      (List.insertionSort roiDescP [("B", peTie), ("A", peTie)]) :=
  (C8_claim [("B", peTie), ("A", peTie)]).2.2.1 ("B", peTie) ("A", peTie)
    (by norm_num [roiDescP, peTie]) (List.Sublist.refl _)

/-- Claim C9, as stated, is false: on records whose spends cancel to a zero
total, every revenueIncrease is finite and sums to 199990, yet the overall
ROI-improvement figure is a division by the zero spend total — a non-finite
float, not the claimed 0. -/
theorem C9_counterexample :
    spend_sum (calculate_roi_metrics [recA, recB]) = 0 ∧
    total_increase (optimal_df [recA, recB]) = some 199990 ∧
    roi_improvement [recA, recB] = none ∧
    roi_improvement [recA, recB] ≠ some 0 := by
  have hs : spend_sum (calculate_roi_metrics [recA, recB]) = 0 := by
    rw [metrics_recAB]
    norm_num [spend_sum, mRecA, mRecB]
  have ht : total_increase (optimal_df [recA, recB]) = some 199990 := by
    rw [optimal_df_recAB]
    norm_num [total_increase, oadd, peRecA, peRecB]
  have hi : roi_improvement [recA, recB] = none := by
    rw [roi_improvement, hs, ht]
    simp [odiv, fdiv, omul]
  exact ⟨hs, ht, hi, by rw [hi]; simp⟩

/-- Claim C9 (amended): the total revenue increase is the rational sum of
the per-channel increases whenever all of them are finite; the overall
ROI-improvement figure equals totalIncrease / spendSum × 100 only when the
spend sum is non-zero — when the spend sum is zero it is a non-finite
float, not 0 (the division is unguarded). -/
theorem C9_claim (records : List Record) :
    (∀ vs : List ℚ,
      (optimal_df records).map (fun p => p.2.RevenueIncrease) = vs.map some →
      total_increase (optimal_df records) = some vs.sum) ∧
    (spend_sum (calculate_roi_metrics records) = 0 →
      roi_improvement records = none) ∧
    (∀ t : ℚ, spend_sum (calculate_roi_metrics records) ≠ 0 →
      total_increase (optimal_df records) = some t →
      roi_improvement records =
        some (t / spend_sum (calculate_roi_metrics records) * 100)) := by
  refine ⟨fun vs hvs => ?_, fun hz => ?_, fun t hnz ht => ?_⟩
  · rw [total_increase, hvs, foldr_oadd_map_some]
  · rw [roi_improvement, hz]
    exact omul_odiv_zero _ _
  · rw [roi_improvement, ht]
    simp [odiv, fdiv, omul, hnz]

/-- Witness for C9: the finite-sum branch on a one-record run, and the
zero-spend-sum branch on the all-zero record. -/
theorem C9_claim_witness :
    total_increase (optimal_df [recA]) = some 199990 ∧
    roi_improvement [zeroR] = none := by
  constructor
  · have h := (C9_claim [recA]).1 [199990]
      (by rw [optimal_df_recA]; norm_num [peRecA])
    simpa using h
  · exact (C9_claim [zeroR]).2.1
      (by rw [metrics_zero_record]; norm_num [spend_sum, mZero])

/-- Claim C10: when the ROI values do not sum to zero, the allocations are
all finite and sum exactly to the budget (the proportional shares total 1),
even when some allocations are negative. -/
theorem C10_claim (metrics : List (String × ChannelMetrics)) (budget : ℚ)
    (hsum : (metrics.map (fun q => q.2.ROI)).sum ≠ 0) :
    alloc_sum (identify_optimization_opportunities metrics budget) = some budget := by
  have hT : ((List.insertionSort roiDescM metrics).map (fun q => q.2.ROI)).sum =
      (metrics.map (fun q => q.2.ROI)).sum :=
    ((List.perm_insertionSort roiDescM metrics).map _).sum_eq
  have hT0 : ((List.insertionSort roiDescM metrics).map (fun q => q.2.ROI)).sum ≠ 0 := by
    rw [hT]; exact hsum
  have hmap : (identify_optimization_opportunities metrics budget).map
      (fun p => p.2.OptimalAllocation) =
      (List.insertionSort roiDescM metrics).map
        (fun q => some (q.2.ROI /
          ((List.insertionSort roiDescM metrics).map (fun q => q.2.ROI)).sum * budget)) := by
    simp only [identify_optimization_opportunities]
    rw [List.map_map]
    refine List.map_congr_left (fun q hq => ?_)
    simp [omul, fdiv, hT0]
  rw [alloc_sum, hmap]
  have hsplit : (List.insertionSort roiDescM metrics).map
      (fun q => some (q.2.ROI /
        ((List.insertionSort roiDescM metrics).map (fun q => q.2.ROI)).sum * budget)) =
      ((List.insertionSort roiDescM metrics).map
        (fun q => q.2.ROI /
          ((List.insertionSort roiDescM metrics).map (fun q => q.2.ROI)).sum * budget)).map
        some := by
    rw [List.map_map]
    rfl
  rw [hsplit, foldr_oadd_map_some]
  congr 1
  have hfac : (List.insertionSort roiDescM metrics).map
      (fun q => q.2.ROI /
        ((List.insertionSort roiDescM metrics).map (fun q => q.2.ROI)).sum * budget) =
      (List.insertionSort roiDescM metrics).map
        (fun q => q.2.ROI *
          (budget / ((List.insertionSort roiDescM metrics).map (fun q => q.2.ROI)).sum)) := by
    refine List.map_congr_left (fun q hq => ?_)
    field_simp
  rw [hfac, List.sum_map_mul_right, mul_comm, div_mul_cancel₀ _ hT0]

/-- Witness for C10 at the §8 scenario with budget 10000 (ROI sum 190,
Social's allocation negative). -/
theorem C10_claim_witness :
    alloc_sum (identify_optimization_opportunities
      [("Email", emailM), ("Social", socialM)] 10000) = some 10000 :=
  C10_claim [("Email", emailM), ("Social", socialM)] 10000
    (by norm_num [emailM, socialM])

end ROICalc
